import Mathlib

/-!
Shallow embedding of the qBittorrent process-lifecycle controller
(`src/app/main.cpp`): command-line parsing (`parseCommandLine`),
the legal-notice consent gate (`userAgreesWithLegalNotice`),
the startup orchestration in `main`, and the POSIX signal handlers
(`sigNormalHandler` / `sigAbnormalHandler`).

Command-line arguments are modelled as lists of characters (`Arg`),
mirroring `QString` contents.  Preprocessor configuration
(`Q_OS_WIN`, `DISABLE_GUI`, `Q_OS_UNIX`/`STACKTRACE_WIN`) is modelled by a
`BuildConfig` record so one definition covers every build target.
External collaborators (preferences store, file system, terminal,
single-instance probe, upgrade routine, `daemon(3)`) are modelled as
inputs in an `Env` record; the orchestrator returns the ordered trace of
observable lifecycle events, the process outcome, and the final
preferences store.
-/

namespace QBt

/-- A command-line token, the character content of a `QString`. -/
abbrev Arg := List Char

/-- `QString::split(QChar)` with `KeepEmptyParts` (the default used by the
source): split a character list at every occurrence of `c`.  The result is
always nonempty. -/
def splitOnChar (c : Char) : List Char → List (List Char)
  | [] => [[]]
  | a :: as =>
    let r := splitOnChar c as
    if a = c then [] :: r
    else (a :: r.headD []) :: r.tail

/-- Decimal digit test, as in `QString::toInt` (base 10, C locale). -/
def isDigitChar (c : Char) : Bool := '0' ≤ c && c ≤ '9'

/-- Numeric value of a decimal digit character. -/
def digitVal (c : Char) : Nat := c.toNat - '0'.toNat

/-- Accumulate a run of decimal digits; `none` when a non-digit occurs. -/
def digitsToNat (acc : Nat) : List Char → Option Nat
  | [] => some acc
  | c :: cs => if isDigitChar c then digitsToNat (acc * 10 + digitVal c) cs else none

/-- Parse a nonempty all-digit character list to a natural number. -/
def qtDigits : List Char → Option Nat
  | [] => none
  | l => digitsToNat 0 l

/-- Model of `QString::toInt()` with the default base 10: an optional
leading sign followed by at least one decimal digit, the whole string
consumed, the value required to fit in a C `int` (32-bit); any conversion
error, including overflow, returns `0`.  This is an external Qt
collaborator, not code of the repository. -/
def qtToInt (s : List Char) : Int :=
  let fin : Int → Int := fun v =>
    if -2147483648 ≤ v ∧ v ≤ 2147483647 then v else 0
  match s with
  | '+' :: rest =>
    (match qtDigits rest with
     | some m => fin m
     | none => 0)
  | '-' :: rest =>
    (match qtDigits rest with
     | some m => fin (-(m : Int))
     | none => 0)
  | rest =>
    (match qtDigits rest with
     | some m => fin m
     | none => 0)

/-- Build target: `Q_OS_WIN`, `DISABLE_GUI`, and whether the signal
handlers are compiled in (`Q_OS_UNIX || STACKTRACE_WIN`). -/
structure BuildConfig where
  isWin : Bool
  disableGui : Bool
  hasSignalHandling : Bool
deriving DecidableEq, Repr

/-- The slice of the external preferences store this core reads and
writes: `isSplashScreenDisabled`, `getWebUiPort`/`setWebUiPort`,
`getAcceptedLegal`/`setAcceptedLegal`. -/
structure Prefs where
  splashDisabled : Bool
  webUiPort : Int
  acceptedLegal : Bool
deriving DecidableEq, Repr

/-- `QBtCommandLineParameters` from `main.cpp`.  Platform-conditional
fields are always present; the parser only sets fields compiled in for
the given `BuildConfig`. -/
structure QBtCommandLineParameters where
  showHelp : Bool
  showVersion : Bool
  noSplash : Bool
  shouldDaemonize : Bool
  webUiPort : Int
  torrents : List Arg
  unknownParameter : Option Arg
deriving DecidableEq, Repr

/-- The `QBtCommandLineParameters` default constructor: flags start
false, `noSplash` is seeded from `isSplashScreenDisabled()` (GUI builds
only), `webUiPort` is seeded from `getWebUiPort()`. -/
def initParams (cfg : BuildConfig) (prefs : Prefs) : QBtCommandLineParameters :=
  { showHelp := false
    showVersion := false
    noSplash := if cfg.disableGui then false else prefs.splashDisabled
    shouldDaemonize := false
    webUiPort := prefs.webUiPort
    torrents := []
    unknownParameter := none }

/-- Token classification from `parseCommandLine`: a token is a flag when
it starts with `--` and does not end in `.torrent`, or starts with `-`
and is exactly two characters long. -/
def isFlagTok (a : Arg) : Bool :=
  ("--".data.isPrefixOf a && !(".torrent".data.isSuffixOf a))
  || ("-".data.isPrefixOf a && a.length == 2)

/-- Dispatch of one flag token, in the source's order of tests:
help, version (non-Windows), `--webui-port=`, `--no-splash` (GUI) or
`-d`/`--daemon` (no-GUI); `none` means the flag is unknown. -/
def applyFlag (cfg : BuildConfig) (r : QBtCommandLineParameters) (a : Arg) :
    Option QBtCommandLineParameters :=
  if a = "-h".data ∨ a = "--help".data then
    some { r with showHelp := true }
  else if cfg.isWin = false ∧ (a = "-v".data ∨ a = "--version".data) then
    some { r with showVersion := true }
  else if "--webui-port=".data.isPrefixOf a then
    let parts := splitOnChar '=' a
    if parts.length = 2 then
      some { r with webUiPort := qtToInt (parts.getLastD []) }
    else
      some r
  else if cfg.disableGui = false ∧ a = "--no-splash".data then
    some { r with noSplash := true }
  else if cfg.disableGui = true ∧ (a = "-d".data ∨ a = "--daemon".data) then
    some { r with shouldDaemonize := true }
  else
    none

/-- The flag tokens `applyFlag` recognizes (those that do not hit its
final `else`): used to state which argument lists parse without
stopping. -/
def recognizedFlag (cfg : BuildConfig) (a : Arg) : Bool :=
  decide (a = "-h".data ∨ a = "--help".data)
  || (decide (cfg.isWin = false) && decide (a = "-v".data ∨ a = "--version".data))
  || decide ("--webui-port=".data <+: a)
  || (decide (cfg.disableGui = false) && decide (a = "--no-splash".data))
  || (decide (cfg.disableGui = true) && decide (a = "-d".data ∨ a = "--daemon".data))

/-- The argument loop of `parseCommandLine`: flags are dispatched through
`applyFlag`; an unknown flag records `unknownParameter` and stops (the
`break`); any other token is appended to `torrents`, normalized to an
absolute path when it names an existing file (`fs`/`ab` model
`QFileInfo::exists` and `QFileInfo::absoluteFilePath`). -/
def parseLoop (cfg : BuildConfig) (fs : Arg → Bool) (ab : Arg → Arg) :
    QBtCommandLineParameters → List Arg → QBtCommandLineParameters
  | r, [] => r
  | r, a :: rest =>
    if isFlagTok a then
      match applyFlag cfg r a with
      | some r' => parseLoop cfg fs ab r' rest
      | none => { r with unknownParameter := some a }
    else
      parseLoop cfg fs ab
        { r with torrents := r.torrents ++ [if fs a then ab a else a] } rest

/-- `parseCommandLine` from `main.cpp`: defaults seeded from the
preferences store, then the loop over the arguments after the program
name. -/
def parseCommandLine (cfg : BuildConfig) (prefs : Prefs)
    (fs : Arg → Bool) (ab : Arg → Arg) (args : List Arg) :
    QBtCommandLineParameters :=
  parseLoop cfg fs ab (initParams cfg prefs) args

end QBt

namespace Lifecycle

open QBt

/-- The distinguishable startup diagnostics `main` can emit. -/
inductive Diag
  | unknownParam (s : Arg)
  | versionNotSole
  | helpNotSole
  | badPort
  | daemonConflict
  | daemonizeFailed
deriving DecidableEq, Repr

/-- Observable lifecycle events of a startup run, in program order. -/
inductive Event
  | parseArgs
  | diag (d : Diag)
  | showVersion
  | showUsage
  | setWebUiPort (n : Int)
  | consentPrompt
  | setAcceptedLegal
  | singletonCheck
  | forwardParams (ts : List Arg)
  | upgradeRun
  | daemonizeCall
  | singletonRecheck
  | splashShown
  | installSignalHandlers
  | startEngine (ts : List Arg)
deriving DecidableEq, Repr

/-- Outcome of a startup run: process exit with a status
(`EXIT_SUCCESS` = 0, `EXIT_FAILURE` = 1), or the engine run loop
(`app->exec`) reached. -/
inductive Outcome
  | exited (code : Nat)
  | running
deriving DecidableEq, Repr

/-- The environment of one startup run: build target, initial
preferences store, command-line arguments after the program name, and
the replies of the external collaborators `main` consults, in the order
it consults them (file system, terminal probes, the user's consent
input, the first `isRunning` probe, `upgrade()`, `daemon(3)`, the
post-daemonize `isRunning` probe). -/
structure Env where
  cfg : BuildConfig
  prefs : Prefs
  args : List Arg
  fsExists : Arg → Bool
  absPath : Arg → Arg
  stdinTty : Bool
  stdoutTty : Bool
  consentInputYes : Bool
  isRunningFirst : Bool
  upgradeOk : Bool
  daemonOk : Bool
  isRunningSecond : Bool

/-- The parameters `main` obtains from `parseCommandLine`. -/
def envParams (env : Env) : QBtCommandLineParameters :=
  parseCommandLine env.cfg env.prefs env.fsExists env.absPath env.args

/-- `userAgreesWithLegalNotice` from `main.cpp`: an already-true
`getAcceptedLegal` record short-circuits to true with no interaction;
otherwise the notice is presented (`Event.consentPrompt`) and an
affirmative input (`'y'`/`'Y'` keypress, or the agree button) persists
`setAcceptedLegal(true)` and returns true; any other input returns false
with the record untouched.  Returns (agreed, events, updated prefs). -/
def userAgreesWithLegalNotice (prefs : Prefs) (inputYes : Bool) :
    Bool × List Event × Prefs :=
  if prefs.acceptedLegal then (true, [], prefs)
  else if inputYes then
    (true, [Event.consentPrompt, Event.setAcceptedLegal],
      { prefs with acceptedLegal := true })
  else (false, [Event.consentPrompt], prefs)

/-- The consent phase of `main`: GUI builds always consult
`userAgreesWithLegalNotice`; no-GUI builds consult it only when not
daemonizing and both stdin and stdout are terminals (the short-circuit
`&&` chain at the call site), otherwise the gate is skipped. -/
def consentStep (env : Env) (params : QBtCommandLineParameters) (prefs1 : Prefs) :
    Bool × List Event × Prefs :=
  if env.cfg.disableGui = false then
    userAgreesWithLegalNotice prefs1 env.consentInputYes
  else if params.shouldDaemonize = false ∧ env.stdinTty = true ∧ env.stdoutTty = true then
    userAgreesWithLegalNotice prefs1 env.consentInputYes
  else (true, [], prefs1)

/-- The tail of `main` after all gates passed: splash (GUI,
non-suppressed), signal-handler installation when compiled in, then
`app->exec(params.torrents)`. -/
def startEngineStep (cfg : BuildConfig) (params : QBtCommandLineParameters)
    (prefs : Prefs) (ev : List Event) (splash : Bool) : List Event × Outcome × Prefs :=
  (ev ++ (if splash then [Event.splashShown] else [])
      ++ (if cfg.hasSignalHandling then [Event.installSignalHandlers] else [])
      ++ [Event.startEngine params.torrents],
   Outcome.running, prefs)

/-- The part of `main` after the consent gate passed: the `isRunning`
singleton check with forward-or-conflict, `upgrade()`, daemonization
with ownership re-acquisition (no-GUI) or splash (GUI), signal-handler
installation, `app->exec`.  `ev1` is the trace accumulated so far and
`prefs2` the preferences store after the consent gate. -/
def afterConsent (env : Env) (params : QBtCommandLineParameters)
    (prefs2 : Prefs) (ev1 : List Event) : List Event × Outcome × Prefs :=
  let cfg := env.cfg
  let ev2 := ev1 ++ [Event.singletonCheck]
  if env.isRunningFirst then
    if cfg.disableGui = true ∧ params.shouldDaemonize = true then
      (ev2 ++ [Event.diag Diag.daemonConflict], Outcome.exited 1, prefs2)
    else
      (ev2 ++ [Event.forwardParams params.torrents], Outcome.exited 0, prefs2)
  else
    let ev3 := ev2 ++ [Event.upgradeRun]
    if env.upgradeOk = false then (ev3, Outcome.exited 1, prefs2)
    else if cfg.disableGui = true then
      if params.shouldDaemonize then
        let ev4 := ev3 ++ [Event.daemonizeCall]
        if env.daemonOk then
          let ev5 := ev4 ++ [Event.singletonRecheck]
          if env.isRunningSecond then (ev5, Outcome.exited 1, prefs2)
          else startEngineStep cfg params prefs2 ev5 false
        else
          (ev4 ++ [Event.diag Diag.daemonizeFailed], Outcome.exited 1, prefs2)
      else startEngineStep cfg params prefs2 ev3 false
    else
      startEngineStep cfg params prefs2 ev3 (params.noSplash = false)

/-- `main` from `main.cpp`, as a function from the environment to the
ordered event trace, the outcome, and the final preferences store.
The steps mirror the source order: parse; unknown-parameter check;
`-v` (non-Windows, must be sole); `-h` (must be sole); web-UI-port range
check and `setWebUiPort`; legal-notice consent (`consentStep`); then
`afterConsent`. -/
def mainRun (env : Env) : List Event × Outcome × Prefs :=
  let cfg := env.cfg
  let isOneArg := env.args.length = 1
  let params := envParams env
  let ev0 : List Event := [Event.parseArgs]
  match params.unknownParameter with
  | some u => (ev0 ++ [Event.diag (Diag.unknownParam u)], Outcome.exited 1, env.prefs)
  | none =>
    if cfg.isWin = false ∧ params.showVersion = true then
      if isOneArg then (ev0 ++ [Event.showVersion], Outcome.exited 0, env.prefs)
      else (ev0 ++ [Event.diag Diag.versionNotSole], Outcome.exited 1, env.prefs)
    else if params.showHelp = true then
      if isOneArg then (ev0 ++ [Event.showUsage], Outcome.exited 0, env.prefs)
      else (ev0 ++ [Event.diag Diag.helpNotSole], Outcome.exited 1, env.prefs)
    else if 0 < params.webUiPort ∧ params.webUiPort ≤ 65535 then
      let prefs1 : Prefs := { env.prefs with webUiPort := params.webUiPort }
      let ev1 := ev0 ++ [Event.setWebUiPort params.webUiPort]
      let consent := consentStep env params prefs1
      if consent.1 = false then (ev1 ++ consent.2.1, Outcome.exited 0, consent.2.2)
      else afterConsent env params consent.2.2 (ev1 ++ consent.2.1)
    else (ev0 ++ [Event.diag Diag.badPort], Outcome.exited 1, env.prefs)

/-- The lifecycle steps of the spec's state machine, used to state
ordering properties of the event trace. -/
inductive Tag
  | parse
  | setPort
  | consent
  | recordConsent
  | singleton
  | forward
  | upgrade
  | daemonCall
  | recheck
  | sigInstall
  | engine
deriving DecidableEq, Repr

/-- Classify an event as a lifecycle step; diagnostics, help/version
output and the splash screen are not steps. -/
def tagOf : Event → Option Tag
  | Event.parseArgs => some Tag.parse
  | Event.setWebUiPort _ => some Tag.setPort
  | Event.consentPrompt => some Tag.consent
  | Event.setAcceptedLegal => some Tag.recordConsent
  | Event.singletonCheck => some Tag.singleton
  | Event.forwardParams _ => some Tag.forward
  | Event.upgradeRun => some Tag.upgrade
  | Event.daemonizeCall => some Tag.daemonCall
  | Event.singletonRecheck => some Tag.recheck
  | Event.installSignalHandlers => some Tag.sigInstall
  | Event.startEngine _ => some Tag.engine
  | _ => none

/-- The order in which `main` performs the lifecycle steps. -/
def canonicalOrder : List Tag :=
  [Tag.parse, Tag.setPort, Tag.consent, Tag.recordConsent, Tag.singleton,
   Tag.forward, Tag.upgrade, Tag.daemonCall, Tag.recheck, Tag.sigInstall,
   Tag.engine]

/-- The lifecycle-step trace of a run. -/
def runTags (env : Env) : List Tag := (mainRun env).1.filterMap tagOf

/-- A concrete GUI-build environment used by witnesses: legal notice
already accepted, stored port 8080, no arguments, nothing else
running. -/
def envG : Env :=
  { cfg := ⟨false, false, true⟩
    prefs := ⟨false, 8080, true⟩
    args := []
    fsExists := fun _ => false
    absPath := id
    stdinTty := true
    stdoutTty := true
    consentInputYes := true
    isRunningFirst := false
    upgradeOk := true
    daemonOk := true
    isRunningSecond := false }

/-- A concrete no-GUI-build environment used by witnesses. -/
def envN : Env :=
  { cfg := ⟨false, true, true⟩
    prefs := ⟨false, 8080, true⟩
    args := []
    fsExists := fun _ => false
    absPath := id
    stdinTty := true
    stdoutTty := true
    consentInputYes := true
    isRunningFirst := false
    upgradeOk := true
    daemonOk := true
    isRunningSecond := false }

end Lifecycle

namespace Signals

/-- Signal numbers used by `main.cpp` (Linux numbering, matching the
`sysSigName` table in the source). -/
def SIGINT : Nat := 2
def SIGABRT : Nat := 6
def SIGSEGV : Nat := 11
def SIGTERM : Nat := 15

/-- Disposition of one signal: the installed normal handler
(`sigNormalHandler`), the installed abnormal handler
(`sigAbnormalHandler`), or `SIG_DFL`. -/
inductive Disposition
  | normalHandler
  | abnormalHandler
  | dfl
deriving DecidableEq, Repr

/-- The signal table `main` installs before `app->exec`: `SIGINT` and
`SIGTERM` to `sigNormalHandler`, `SIGABRT` and `SIGSEGV` to
`sigAbnormalHandler`; everything else stays at default. -/
def installedTable : Nat → Disposition := fun s =>
  if s = SIGINT ∨ s = SIGTERM then Disposition.normalHandler
  else if s = SIGABRT ∨ s = SIGSEGV then Disposition.abnormalHandler
  else Disposition.dfl

/-- Point update of a signal table. -/
def setDisp (t : Nat → Disposition) (s : Nat) (d : Disposition) :
    Nat → Disposition := fun x => if x = s then d else t x

/-- What one delivery of a signal does, besides updating the table. -/
inductive SigAction
  | cleanExitRequested
  | reRaised
  | osDefault
deriving DecidableEq, Repr

/-- Deliver a signal under the current table, following the handler
bodies in `main.cpp`: `sigNormalHandler` writes a notice, does
`signal(signum, SIG_DFL)` and requests `qApp->exit()`;
`sigAbnormalHandler` writes a notice and a stack trace, does
`signal(signum, SIG_DFL)` and then `raise(signum)`; a `SIG_DFL`
disposition is the OS default action. -/
def deliverSignal (t : Nat → Disposition) (s : Nat) :
    (Nat → Disposition) × SigAction :=
  match t s with
  | Disposition.normalHandler => (setDisp t s Disposition.dfl, SigAction.cleanExitRequested)
  | Disposition.abnormalHandler => (setDisp t s Disposition.dfl, SigAction.reRaised)
  | Disposition.dfl => (t, SigAction.osDefault)

end Signals

section Sanity

open QBt

example :
    (parseCommandLine ⟨false, false, true⟩ ⟨false, 8080, true⟩
      (fun _ => false) id ["--webui-port=9090".data]).webUiPort = 9090 := by
  decide

example :
    (parseCommandLine ⟨false, false, true⟩ ⟨false, 8080, true⟩
      (fun _ => false) id ["--webui-port=abc".data]).webUiPort = 0 := by
  decide

example :
    (parseCommandLine ⟨false, false, true⟩ ⟨false, 8080, true⟩
      (fun _ => false) id ["--webui-port=".data]).webUiPort = 0 := by
  decide

example :
    (parseCommandLine ⟨false, false, true⟩ ⟨false, 8080, true⟩
      (fun _ => false) id ["--webui-port=1=2".data]).webUiPort = 8080 := by
  decide

example :
    (parseCommandLine ⟨false, false, true⟩ ⟨false, 8080, true⟩
      (fun _ => false) id ["--bogus".data, "-h".data]).unknownParameter
      = some "--bogus".data ∧
    (parseCommandLine ⟨false, false, true⟩ ⟨false, 8080, true⟩
      (fun _ => false) id ["--bogus".data, "-h".data]).showHelp = false := by
  constructor <;> decide

example :
    (parseCommandLine ⟨false, false, true⟩ ⟨false, 8080, true⟩
      (fun _ => false) id ["--evil.torrent".data]).torrents
      = ["--evil.torrent".data] := by
  decide

end Sanity

namespace Lifecycle

open QBt

example : (mainRun envG).2.1 = Outcome.running := by decide

example : (mainRun envG).1 =
    [Event.parseArgs, Event.setWebUiPort 8080, Event.singletonCheck,
     Event.upgradeRun, Event.splashShown, Event.installSignalHandlers,
     Event.startEngine []] := by decide

/-- The consent phase has exactly three result shapes: silently agreed
(record already true or gate skipped), prompted and agreed (record
persisted), prompted and declined (record untouched). -/
theorem consentStep_cases (env : Env) (params : QBtCommandLineParameters) (p : Prefs) :
    consentStep env params p = (true, [], p)
    ∨ consentStep env params p
        = (true, [Event.consentPrompt, Event.setAcceptedLegal],
            { p with acceptedLegal := true })
    ∨ consentStep env params p = (false, [Event.consentPrompt], p) := by
  unfold consentStep userAgreesWithLegalNotice
  repeat' split
  all_goals simp

/-- An already-true consent record short-circuits the consent phase in
every mode: no prompt, no store write. -/
theorem consentStep_accepted (env : Env) (params : QBtCommandLineParameters)
    (p : Prefs) (h : p.acceptedLegal = true) :
    consentStep env params p = (true, [], p) := by
  unfold consentStep userAgreesWithLegalNotice
  split_ifs <;> simp_all

/-- In a no-GUI build the consent gate is skipped when daemonizing (or
when stdin/stdout is not a terminal). -/
theorem consentStep_skipped (env : Env) (params : QBtCommandLineParameters)
    (p : Prefs) (hd : env.cfg.disableGui = true)
    (h : params.shouldDaemonize = true ∨ env.stdinTty = false ∨ env.stdoutTty = false) :
    consentStep env params p = (true, [], p) := by
  unfold consentStep userAgreesWithLegalNotice
  rcases h with h | h | h <;> split_ifs <;> simp_all

/-- GUI build, record false, affirmative input: the prompt is shown and
the record is persisted. -/
theorem consentStep_prompt_yes (env : Env) (params : QBtCommandLineParameters)
    (p : Prefs) (hg : env.cfg.disableGui = false)
    (hL : p.acceptedLegal = false) (hY : env.consentInputYes = true) :
    consentStep env params p
      = (true, [Event.consentPrompt, Event.setAcceptedLegal],
          { p with acceptedLegal := true }) := by
  unfold consentStep userAgreesWithLegalNotice
  split_ifs <;> simp_all

/-- GUI build, record false, non-affirmative input: the prompt is shown,
the gate declines, the record stays untouched. -/
theorem consentStep_prompt_no (env : Env) (params : QBtCommandLineParameters)
    (p : Prefs) (hg : env.cfg.disableGui = false)
    (hL : p.acceptedLegal = false) (hY : env.consentInputYes = false) :
    consentStep env params p = (false, [Event.consentPrompt], p) := by
  unfold consentStep userAgreesWithLegalNotice
  split_ifs <;> simp_all

set_option maxHeartbeats 2000000 in
/-- Claim C6: if the upgrade step (`upgrade()`, the migration runner)
fails, `app->exec` is never invoked and the process exits with the
non-zero status `EXIT_FAILURE`. -/
theorem C6_migration_failure (env : Env) (h : env.upgradeOk = false) :
    (∀ ts, Event.startEngine ts ∉ (mainRun env).1) ∧
    (Event.upgradeRun ∈ (mainRun env).1 → (mainRun env).2.1 = Outcome.exited 1) := by
  have hc := consentStep_cases env (envParams env)
    { env.prefs with webUiPort := (envParams env).webUiPort }
  constructor
  · intro ts
    simp only [mainRun, afterConsent, startEngineStep, h]
    rcases hc with hc | hc | hc
    all_goals rw [hc]
    all_goals split
    all_goals try split_ifs
    all_goals simp [List.mem_append]
  · simp only [mainRun, afterConsent, startEngineStep, h]
    rcases hc with hc | hc | hc
    all_goals rw [hc]
    all_goals split
    all_goals try split_ifs
    all_goals simp [List.mem_append]

/-- Claim C6, witness: a concrete run with a failing upgrade reaches the
upgrade step, never starts the engine, and exits 1. -/
theorem C6_witness :
    Event.startEngine [] ∉ (mainRun { envG with upgradeOk := false }).1 ∧
    (mainRun { envG with upgradeOk := false }).2.1 = Outcome.exited 1 :=
  ⟨(C6_migration_failure { envG with upgradeOk := false } rfl).1 [],
   (C6_migration_failure { envG with upgradeOk := false } rfl).2 (by decide)⟩

set_option maxHeartbeats 2000000 in
/-- Claim C5: the consent gate (GUI build, where the prompt is always
reachable): an already-true record never prompts and startup proceeds to
the singleton check; a decline on a false record exits 0, leaves the
record false and never starts the engine; an affirmative input persists
the record exactly once and startup proceeds. -/
theorem C5_consent_gate (env : Env)
    (hg : env.cfg.disableGui = false)
    (hu : (envParams env).unknownParameter = none)
    (hv : (envParams env).showVersion = false)
    (hh : (envParams env).showHelp = false)
    (hp : 0 < (envParams env).webUiPort ∧ (envParams env).webUiPort ≤ 65535) :
    (env.prefs.acceptedLegal = true →
        Event.consentPrompt ∉ (mainRun env).1
        ∧ Event.singletonCheck ∈ (mainRun env).1
        ∧ (mainRun env).2.2.acceptedLegal = true)
    ∧ (env.prefs.acceptedLegal = false → env.consentInputYes = false →
        (mainRun env).2.1 = Outcome.exited 0
        ∧ (mainRun env).2.2.acceptedLegal = false
        ∧ (∀ ts, Event.startEngine ts ∉ (mainRun env).1))
    ∧ (env.prefs.acceptedLegal = false → env.consentInputYes = true →
        (mainRun env).1.count Event.setAcceptedLegal = 1
        ∧ (mainRun env).2.2.acceptedLegal = true
        ∧ Event.singletonCheck ∈ (mainRun env).1) := by
  refine ⟨fun hL => ?_, fun hL hY => ?_, fun hL hY => ?_⟩
  · have hc := consentStep_accepted env (envParams env)
      { env.prefs with webUiPort := (envParams env).webUiPort } (by simp [hL])
    simp only [mainRun, afterConsent, startEngineStep]
    rw [hc]
    split
    all_goals try simp_all [List.mem_append]
    all_goals try split_ifs
    all_goals simp_all [List.mem_append]
  · have hc := consentStep_prompt_no env (envParams env)
      { env.prefs with webUiPort := (envParams env).webUiPort } hg (by simp [hL]) hY
    simp only [mainRun, afterConsent, startEngineStep]
    rw [hc]
    split
    all_goals try simp_all [List.mem_append]
    all_goals try split_ifs
    all_goals simp_all [List.mem_append]
  · have hc := consentStep_prompt_yes env (envParams env)
      { env.prefs with webUiPort := (envParams env).webUiPort } hg (by simp [hL]) hY
    simp only [mainRun, afterConsent, startEngineStep]
    rw [hc]
    split
    all_goals try simp_all [List.mem_append, List.count_append, List.count_cons,
      List.count_nil]
    all_goals try split_ifs
    all_goals
      simp_all [List.mem_append, List.count_append, List.count_cons, List.count_nil]

/-- Claim C5, witness: concrete runs through each consent path. -/
theorem C5_witness :
    (Event.consentPrompt ∉ (mainRun envG).1
      ∧ Event.singletonCheck ∈ (mainRun envG).1
      ∧ (mainRun envG).2.2.acceptedLegal = true)
    ∧ ((mainRun { envG with prefs := ⟨false, 8080, false⟩, consentInputYes := false }).2.1
          = Outcome.exited 0
      ∧ (mainRun { envG with prefs := ⟨false, 8080, false⟩, consentInputYes := false
          }).2.2.acceptedLegal = false)
    ∧ ((mainRun { envG with prefs := ⟨false, 8080, false⟩ }).1.count Event.setAcceptedLegal = 1
      ∧ (mainRun { envG with prefs := ⟨false, 8080, false⟩ }).2.2.acceptedLegal = true) := by
  refine ⟨(C5_consent_gate envG rfl rfl rfl rfl (by decide)).1 rfl, ?_, ?_⟩
  · have h := (C5_consent_gate { envG with prefs := ⟨false, 8080, false⟩, consentInputYes := false }
      rfl rfl rfl rfl (by decide)).2.1 rfl rfl
    exact ⟨h.1, h.2.1⟩
  · have h := (C5_consent_gate { envG with prefs := ⟨false, 8080, false⟩ }
      rfl rfl rfl rfl (by decide)).2.2 rfl rfl
    exact ⟨h.1, h.2.1⟩

set_option maxHeartbeats 2000000 in
/-- Claim C2: when another live instance already owns the application
identity (the first `isRunning` probe answers true), a run that passed
the argument and consent gates forwards its torrent list and exits 0 in
interactive mode; in no-GUI daemonize mode it emits the already-running
diagnostic and exits 1 without forwarding. -/
theorem C2_already_running (env : Env)
    (hu : (envParams env).unknownParameter = none)
    (hv : (envParams env).showVersion = false)
    (hh : (envParams env).showHelp = false)
    (hp : 0 < (envParams env).webUiPort ∧ (envParams env).webUiPort ≤ 65535)
    (hL : env.prefs.acceptedLegal = true)
    (hr : env.isRunningFirst = true) :
    (¬(env.cfg.disableGui = true ∧ (envParams env).shouldDaemonize = true) →
        (mainRun env).2.1 = Outcome.exited 0
        ∧ Event.forwardParams (envParams env).torrents ∈ (mainRun env).1)
    ∧ ((env.cfg.disableGui = true ∧ (envParams env).shouldDaemonize = true) →
        (mainRun env).2.1 = Outcome.exited 1
        ∧ Event.diag Diag.daemonConflict ∈ (mainRun env).1
        ∧ ∀ ts, Event.forwardParams ts ∉ (mainRun env).1) := by
  have hc := consentStep_accepted env (envParams env)
    { env.prefs with webUiPort := (envParams env).webUiPort } (by simp [hL])
  refine ⟨fun hm => ?_, fun hm => ?_⟩
  all_goals
    simp only [mainRun, afterConsent, startEngineStep]
    rw [hc]
    split
  all_goals try simp_all [List.mem_append]
  all_goals try split_ifs
  all_goals simp_all [List.mem_append]

/-- Claim C2, witness: a second interactive launch forwards and exits 0;
a second daemonized launch exits 1 with the diagnostic. -/
theorem C2_witness :
    ((mainRun { envG with isRunningFirst := true }).2.1 = Outcome.exited 0
      ∧ Event.forwardParams [] ∈ (mainRun { envG with isRunningFirst := true }).1)
    ∧ ((mainRun { envN with args := ["-d".data], isRunningFirst := true }).2.1
          = Outcome.exited 1
      ∧ Event.diag Diag.daemonConflict
          ∈ (mainRun { envN with args := ["-d".data], isRunningFirst := true }).1) := by
  constructor
  · exact (C2_already_running { envG with isRunningFirst := true }
      rfl rfl rfl (by decide) rfl rfl).1 (by decide)
  · have h := (C2_already_running { envN with args := ["-d".data], isRunningFirst := true }
      (by decide) (by decide) (by decide) (by decide) rfl rfl).2 (by decide)
    exact ⟨h.1, h.2.1⟩

set_option maxHeartbeats 2000000 in
/-- Claim C9: in no-GUI daemonize mode, instance ownership is
re-attempted after the detach (`singletonRecheck` occurs only after a
successful `daemonizeCall`); if `daemon(3)` itself fails, or the
re-acquisition probe finds another instance, the process exits 1 and the
engine never starts. -/
theorem C9_daemonize_race (env : Env)
    (hd : env.cfg.disableGui = true)
    (hD : (envParams env).shouldDaemonize = true)
    (hu : (envParams env).unknownParameter = none)
    (hv : (envParams env).showVersion = false)
    (hh : (envParams env).showHelp = false)
    (hp : 0 < (envParams env).webUiPort ∧ (envParams env).webUiPort ≤ 65535)
    (hr : env.isRunningFirst = false)
    (hU : env.upgradeOk = true) :
    (env.daemonOk = false →
        Event.singletonRecheck ∉ (mainRun env).1
        ∧ (mainRun env).2.1 = Outcome.exited 1
        ∧ Event.diag Diag.daemonizeFailed ∈ (mainRun env).1
        ∧ ∀ ts, Event.startEngine ts ∉ (mainRun env).1)
    ∧ (env.daemonOk = true → env.isRunningSecond = true →
        (mainRun env).2.1 = Outcome.exited 1
        ∧ ∀ ts, Event.startEngine ts ∉ (mainRun env).1)
    ∧ (env.daemonOk = true →
        Event.daemonizeCall ∈ (mainRun env).1
        ∧ Event.singletonRecheck ∈ (mainRun env).1) := by
  have hc := consentStep_skipped env (envParams env)
    { env.prefs with webUiPort := (envParams env).webUiPort } hd (Or.inl hD)
  refine ⟨fun hk => ?_, fun hk h2 => ?_, fun hk => ?_⟩
  all_goals
    simp only [mainRun, afterConsent, startEngineStep]
    rw [hc]
    split
  all_goals try simp_all [List.mem_append]
  all_goals try split_ifs
  all_goals simp_all [List.mem_append]

/-- Claim C9, witness: concrete daemonized runs losing the race at each
point. -/
theorem C9_witness :
    ((mainRun { envN with args := ["-d".data], daemonOk := false }).2.1
        = Outcome.exited 1
      ∧ Event.diag Diag.daemonizeFailed
          ∈ (mainRun { envN with args := ["-d".data], daemonOk := false }).1)
    ∧ ((mainRun { envN with args := ["-d".data], isRunningSecond := true }).2.1
        = Outcome.exited 1
      ∧ Event.startEngine []
          ∉ (mainRun { envN with args := ["-d".data], isRunningSecond := true }).1) := by
  constructor
  · have h := (C9_daemonize_race { envN with args := ["-d".data], daemonOk := false }
      rfl (by decide) (by decide) (by decide) (by decide) (by decide) rfl rfl).1 rfl
    exact ⟨h.2.1, h.2.2.1⟩
  · have h := ((C9_daemonize_race { envN with args := ["-d".data], isRunningSecond := true }
      rfl (by decide) (by decide) (by decide) (by decide) (by decide) rfl rfl).2.1) rfl rfl
    exact ⟨h.1, h.2 []⟩

set_option maxHeartbeats 2000000 in
/-- Claim C10: a launch with no arguments at all still passes the stored
default web UI port through the range check: when in range it is written
back via `setWebUiPort`; when the stored default is out of range the
launch is rejected as a bad-port usage error with exit status 1. -/
theorem C10_port_writeback (env : Env) (ha : env.args = []) :
    ((0 < env.prefs.webUiPort ∧ env.prefs.webUiPort ≤ 65535) →
        Event.setWebUiPort env.prefs.webUiPort ∈ (mainRun env).1
        ∧ (mainRun env).2.2.webUiPort = env.prefs.webUiPort)
    ∧ (¬(0 < env.prefs.webUiPort ∧ env.prefs.webUiPort ≤ 65535) →
        (mainRun env).2.1 = Outcome.exited 1
        ∧ Event.diag Diag.badPort ∈ (mainRun env).1
        ∧ ∀ n, Event.setWebUiPort n ∉ (mainRun env).1) := by
  have hparams : envParams env = initParams env.cfg env.prefs := by
    simp [envParams, parseCommandLine, ha, parseLoop]
  have hc := consentStep_cases env (envParams env)
    { env.prefs with webUiPort := (envParams env).webUiPort }
  refine ⟨fun hin => ?_, fun hout => ?_⟩
  all_goals
    simp only [mainRun, afterConsent, startEngineStep]
    rcases hc with hc | hc | hc
  all_goals rw [hc]
  all_goals split
  all_goals try simp_all [hparams, initParams, List.mem_append]
  all_goals try split_ifs
  all_goals try simp_all [List.mem_append]
  all_goals omega

/-- Claim C10, witness: a no-argument launch writes back the stored
port 8080; a no-argument launch with stored port 0 exits 1 with the
bad-port diagnostic. -/
theorem C10_witness :
    (Event.setWebUiPort 8080 ∈ (mainRun envG).1
      ∧ (mainRun envG).2.2.webUiPort = 8080)
    ∧ ((mainRun { envG with prefs := ⟨false, 0, true⟩ }).2.1 = Outcome.exited 1
      ∧ Event.diag Diag.badPort ∈ (mainRun { envG with prefs := ⟨false, 0, true⟩ }).1) := by
  constructor
  · exact (C10_port_writeback envG rfl).1 (by decide)
  · have h := (C10_port_writeback { envG with prefs := ⟨false, 0, true⟩ } rfl).2 (by decide)
    exact ⟨h.1, h.2.1⟩

end Lifecycle

namespace Signals

/-- Claim C7: for every handled signal (SIGINT, SIGTERM, SIGABRT,
SIGSEGV), the first delivery restores that signal's disposition to
default before the handler returns; the abnormal handler re-raises after
restoring default, and a second delivery of the same signal is handled
by the OS default action, not by the installed handler. -/
theorem C7_signal_disposition (s : Nat)
    (h : s = SIGINT ∨ s = SIGTERM ∨ s = SIGABRT ∨ s = SIGSEGV) :
    (deliverSignal installedTable s).1 s = Disposition.dfl
    ∧ ((s = SIGABRT ∨ s = SIGSEGV) →
        (deliverSignal installedTable s).2 = SigAction.reRaised)
    ∧ ((s = SIGINT ∨ s = SIGTERM) →
        (deliverSignal installedTable s).2 = SigAction.cleanExitRequested)
    ∧ (deliverSignal (deliverSignal installedTable s).1 s).2 = SigAction.osDefault := by
  rcases h with rfl | rfl | rfl | rfl <;> decide

/-- Claim C7, witness: SIGSEGV concretely. -/
theorem C7_witness :
    (deliverSignal installedTable SIGSEGV).1 SIGSEGV = Disposition.dfl
    ∧ (deliverSignal installedTable SIGSEGV).2 = SigAction.reRaised
    ∧ (deliverSignal (deliverSignal installedTable SIGSEGV).1 SIGSEGV).2
        = SigAction.osDefault :=
  ⟨(C7_signal_disposition SIGSEGV (by decide)).1,
   (C7_signal_disposition SIGSEGV (by decide)).2.1 (by decide),
   (C7_signal_disposition SIGSEGV (by decide)).2.2.2⟩

end Signals

namespace QBt

/-- Unfolding equation of `splitOnChar` at `[]`. -/
theorem splitOnChar_nil (c : Char) : splitOnChar c [] = [[]] := by
  rw [splitOnChar]

/-- Unfolding equation of `splitOnChar` at a cons. -/
theorem splitOnChar_cons (c a : Char) (as : List Char) :
    splitOnChar c (a :: as)
      = if a = c then [] :: splitOnChar c as
        else (a :: (splitOnChar c as).headD []) :: (splitOnChar c as).tail := by
  conv_lhs => rw [splitOnChar]

/-- Splitting a list without the separator is the identity. -/
theorem splitOnChar_of_not_mem (c : Char) (l : List Char) (h : c ∉ l) :
    splitOnChar c l = [l] := by
  induction l with
  | nil => exact splitOnChar_nil c
  | cons a as ih =>
    simp only [List.mem_cons, not_or] at h
    rw [splitOnChar_cons, if_neg (fun heq => h.1 heq.symm), ih h.2]
    simp

/-- Splitting at the first separator occurrence. -/
theorem splitOnChar_append (c : Char) (p v : List Char) (hp : c ∉ p) :
    splitOnChar c (p ++ c :: v) = p :: splitOnChar c v := by
  induction p with
  | nil =>
    rw [List.nil_append, splitOnChar_cons, if_pos rfl]
  | cons a p' ih =>
    simp only [List.mem_cons, not_or] at hp
    rw [List.cons_append, splitOnChar_cons, if_neg (fun heq => hp.1 heq.symm), ih hp.2]
    simp

/-- A list is a `isPrefixOf`-prefix of itself extended by anything. -/
theorem isPrefixOf_append_self (p l : List Char) : p.isPrefixOf (p ++ l) = true := by
  induction p with
  | nil => simp [List.isPrefixOf]
  | cons a as ih => simp [List.isPrefixOf, ih]

/-- `applyFlag` succeeds exactly on the recognized flags. -/
theorem applyFlag_isSome (cfg : BuildConfig) (r : QBtCommandLineParameters) (a : Arg) :
    (applyFlag cfg r a).isSome = recognizedFlag cfg a := by
  unfold applyFlag recognizedFlag
  split_ifs
  all_goals simp_all [List.isPrefixOf_iff_prefix, apply_ite Option.isSome]

/-- A recognized flag leaves `unknownParameter` and `torrents` untouched,
and leaves `webUiPort` untouched unless it is the `--webui-port=` flag. -/
theorem applyFlag_fields (cfg : BuildConfig) (r r' : QBtCommandLineParameters)
    (a : Arg) (h : applyFlag cfg r a = some r') :
    r'.unknownParameter = r.unknownParameter
    ∧ r'.torrents = r.torrents
    ∧ ("--webui-port=".data.isPrefixOf a = false → r'.webUiPort = r.webUiPort) := by
  unfold applyFlag at h
  split_ifs at h with h1 h2 h3 h4 h5
  · simp only [Option.some.injEq] at h
    subst h
    exact ⟨rfl, rfl, fun _ => rfl⟩
  · simp only [Option.some.injEq] at h
    subst h
    exact ⟨rfl, rfl, fun _ => rfl⟩
  · rcases Decidable.em ((splitOnChar '=' a).length = 2) with hc | hc
    · rw [if_pos hc, Option.some.injEq] at h
      subst h
      refine ⟨rfl, rfl, fun hfalse => ?_⟩
      rw [h3] at hfalse
      cases hfalse
    · rw [if_neg hc, Option.some.injEq] at h
      subst h
      exact ⟨rfl, rfl, fun _ => rfl⟩
  · simp only [Option.some.injEq] at h
    subst h
    exact ⟨rfl, rfl, fun _ => rfl⟩
  · simp only [Option.some.injEq] at h
    subst h
    exact ⟨rfl, rfl, fun _ => rfl⟩

/-- Unfolding equation of `parseLoop` at `[]`. -/
theorem parseLoop_nil (cfg : BuildConfig) (fs : Arg → Bool) (ab : Arg → Arg)
    (r : QBtCommandLineParameters) : parseLoop cfg fs ab r [] = r := by
  rw [parseLoop]

/-- Unfolding equation of `parseLoop` at a cons. -/
theorem parseLoop_cons (cfg : BuildConfig) (fs : Arg → Bool) (ab : Arg → Arg)
    (r : QBtCommandLineParameters) (a : Arg) (rest : List Arg) :
    parseLoop cfg fs ab r (a :: rest)
      = if isFlagTok a then
          match applyFlag cfg r a with
          | some r' => parseLoop cfg fs ab r' rest
          | none => { r with unknownParameter := some a }
        else
          parseLoop cfg fs ab
            { r with torrents := r.torrents ++ [if fs a then ab a else a] } rest := by
  conv_lhs => rw [parseLoop]

/-- A list of recognized-if-flag tokens never sets `unknownParameter`. -/
theorem parseLoop_no_break (cfg : BuildConfig) (fs : Arg → Bool) (ab : Arg → Arg)
    (l : List Arg) (r : QBtCommandLineParameters)
    (h : ∀ a ∈ l, isFlagTok a = true → recognizedFlag cfg a = true) :
    (parseLoop cfg fs ab r l).unknownParameter = r.unknownParameter := by
  induction l generalizing r with
  | nil => rw [parseLoop_nil]
  | cons a as ih =>
    rw [parseLoop_cons]
    by_cases hf : isFlagTok a = true
    · rw [if_pos hf]
      rcases happly : applyFlag cfg r a with _ | r'
      · have h1 := h a (List.mem_cons_self a as) hf
        have h2 := applyFlag_isSome cfg r a
        rw [happly] at h2
        simp [h1] at h2
      · simp only [happly]
        exact (ih r' (fun b hb hbf => h b (List.mem_cons_of_mem a hb) hbf)).trans
          (applyFlag_fields cfg r r' a happly).1
    · rw [if_neg hf]
      exact ih _ (fun b hb hbf => h b (List.mem_cons_of_mem a hb) hbf)

/-- Processing a break-free block of tokens composes. -/
theorem parseLoop_append (cfg : BuildConfig) (fs : Arg → Bool) (ab : Arg → Arg)
    (pre l : List Arg) (r : QBtCommandLineParameters)
    (h : ∀ a ∈ pre, isFlagTok a = true → recognizedFlag cfg a = true) :
    parseLoop cfg fs ab r (pre ++ l)
      = parseLoop cfg fs ab (parseLoop cfg fs ab r pre) l := by
  induction pre generalizing r with
  | nil => rw [List.nil_append, parseLoop_nil]
  | cons a pre' ih =>
    rw [List.cons_append, parseLoop_cons cfg fs ab r a (pre' ++ l),
      parseLoop_cons cfg fs ab r a pre']
    by_cases hf : isFlagTok a = true
    · rw [if_pos hf, if_pos hf]
      rcases happly : applyFlag cfg r a with _ | r'
      · have h1 := h a (List.mem_cons_self a pre') hf
        have h2 := applyFlag_isSome cfg r a
        rw [happly] at h2
        simp [h1] at h2
      · simp only [happly]
        exact ih r' (fun b hb hbf => h b (List.mem_cons_of_mem a hb) hbf)
    · rw [if_neg hf, if_neg hf]
      exact ih _ (fun b hb hbf => h b (List.mem_cons_of_mem a hb) hbf)

/-- Tokens that are not the `--webui-port=` flag leave the parsed web UI
port unchanged (an unknown-flag break also leaves it unchanged). -/
theorem parseLoop_port_frozen (cfg : BuildConfig) (fs : Arg → Bool) (ab : Arg → Arg)
    (l : List Arg) (r : QBtCommandLineParameters)
    (h : ∀ a ∈ l, isFlagTok a = true → "--webui-port=".data.isPrefixOf a = false) :
    (parseLoop cfg fs ab r l).webUiPort = r.webUiPort := by
  induction l generalizing r with
  | nil => rw [parseLoop_nil]
  | cons a as ih =>
    rw [parseLoop_cons]
    by_cases hf : isFlagTok a = true
    · rw [if_pos hf]
      rcases happly : applyFlag cfg r a with _ | r'
      · rfl
      · simp only [happly]
        exact (ih r' (fun b hb hbf => h b (List.mem_cons_of_mem a hb) hbf)).trans
          ((applyFlag_fields cfg r r' a happly).2.2 (h a (List.mem_cons_self a as) hf))
    · rw [if_neg hf]
      exact ih _ (fun b hb hbf => h b (List.mem_cons_of_mem a hb) hbf)

/-- Processing a well-formed `--webui-port=<value>` token stores
`toInt(value)` in the request (the value must contain no further `=`,
or the token is ignored, and must not end in `.torrent`, or the token is
a torrent source). -/
theorem parseLoop_port_tok (cfg : BuildConfig) (fs : Arg → Bool) (ab : Arg → Arg)
    (r : QBtCommandLineParameters) (rest : List Arg) (v : Arg)
    (hv : '=' ∉ v)
    (ht : ".torrent".data.isSuffixOf ("--webui-port=".data ++ v) = false) :
    parseLoop cfg fs ab r (("--webui-port=".data ++ v) :: rest)
      = parseLoop cfg fs ab { r with webUiPort := qtToInt v } rest := by
  have hlen : ∀ (w : List Char), w.length < 13 → ¬("--webui-port=".data ++ v = w) := by
    intro w hw heq
    have hl := congrArg List.length heq
    simp [List.length_append] at hl
    omega
  have hparts : splitOnChar '=' ("--webui-port=".data ++ v)
      = ["--webui-port".data, v] := by
    have htok : "--webui-port=".data ++ v = "--webui-port".data ++ '=' :: v := rfl
    rw [htok, splitOnChar_append '=' _ v (by decide), splitOnChar_of_not_mem '=' v hv]
  have hpfx : "--webui-port=".data.isPrefixOf ("--webui-port=".data ++ v) = true :=
    isPrefixOf_append_self _ _
  have hflag : isFlagTok ("--webui-port=".data ++ v) = true := by
    unfold isFlagTok
    rw [ht]
    have h2 : "--".data.isPrefixOf ("--webui-port=".data ++ v) = true := by
      have : "--webui-port=".data ++ v = "--".data ++ ("webui-port=".data ++ v) := rfl
      rw [this]
      exact isPrefixOf_append_self _ _
    simp [h2]
  have happly : applyFlag cfg r ("--webui-port=".data ++ v)
      = some { r with webUiPort := qtToInt v } := by
    unfold applyFlag
    rw [if_neg (fun hor => hor.elim (hlen _ (by decide)) (hlen _ (by decide)))]
    rw [if_neg (fun hand => hand.2.elim (hlen _ (by decide)) (hlen _ (by decide)))]
    rw [if_pos hpfx, hparts]
    simp
  rw [parseLoop_cons, if_pos hflag, happly]

/-- An unrecognized flag token stops the loop at once, recording itself
as the unknown parameter; later tokens are never examined. -/
theorem parseLoop_stop (cfg : BuildConfig) (fs : Arg → Bool) (ab : Arg → Arg)
    (r : QBtCommandLineParameters) (u : Arg) (suf : List Arg)
    (hf : isFlagTok u = true) (hn : applyFlag cfg r u = none) :
    parseLoop cfg fs ab r (u :: suf) = { r with unknownParameter := some u } := by
  unfold parseLoop
  rw [if_pos hf, hn]

/-- A single well-formed `--webui-port=<value>` argument parses to the
defaults with the web UI port replaced by `toInt(value)`. -/
theorem parse_single_port (cfg : BuildConfig) (prefs : Prefs)
    (fs : Arg → Bool) (ab : Arg → Arg) (v : Arg)
    (hv : '=' ∉ v)
    (ht : ".torrent".data.isSuffixOf ("--webui-port=".data ++ v) = false) :
    parseCommandLine cfg prefs fs ab ["--webui-port=".data ++ v]
      = { initParams cfg prefs with webUiPort := qtToInt v } := by
  unfold parseCommandLine
  rw [parseLoop_port_tok cfg fs ab _ [] v hv ht, parseLoop_nil]

end QBt

namespace Lifecycle

open QBt

set_option maxHeartbeats 2000000 in
/-- Claim C8: the first unrecognized flag token stops parsing at once
and is recorded as `unknownParameter` (tokens after it are never
examined: the result does not depend on them); whenever
`unknownParameter` is set, `main` emits the bad-argument diagnostic and
exits 1 before any other lifecycle step. -/
theorem C8_unknown_parameter :
    (∀ (cfg : BuildConfig) (prefs : Prefs) (fs : Arg → Bool) (ab : Arg → Arg)
        (pre suf : List Arg) (u : Arg),
        (∀ a ∈ pre, isFlagTok a = true → recognizedFlag cfg a = true) →
        isFlagTok u = true → recognizedFlag cfg u = false →
        parseCommandLine cfg prefs fs ab (pre ++ u :: suf)
          = { parseLoop cfg fs ab (initParams cfg prefs) pre
              with unknownParameter := some u })
    ∧ (∀ (env : Env) (u : Arg), (envParams env).unknownParameter = some u →
        mainRun env
          = ([Event.parseArgs, Event.diag (Diag.unknownParam u)],
              Outcome.exited 1, env.prefs)) := by
  constructor
  · intro cfg prefs fs ab pre suf u hpre hf hunrec
    unfold parseCommandLine
    rw [parseLoop_append cfg fs ab pre (u :: suf) (initParams cfg prefs) hpre]
    have hn : applyFlag cfg (parseLoop cfg fs ab (initParams cfg prefs) pre) u
        = none := by
      rcases happ : applyFlag cfg (parseLoop cfg fs ab (initParams cfg prefs) pre) u
        with _ | r'
      · rfl
      · have h2 := applyFlag_isSome cfg
          (parseLoop cfg fs ab (initParams cfg prefs) pre) u
        rw [happ, hunrec] at h2
        simp at h2
    exact parseLoop_stop cfg fs ab _ u suf hf hn
  · intro env u hu
    simp only [mainRun]
    rw [hu]
    rfl

/-- Claim C8, witness: `--bogus` after `-h` stops parsing before `-v`
is seen, and a run with it exits 1 with only the diagnostic. -/
theorem C8_witness :
    parseCommandLine ⟨false, false, true⟩ ⟨false, 8080, true⟩ (fun _ => false) id
        (["-h".data] ++ "--bogus".data :: ["-v".data])
      = { parseLoop ⟨false, false, true⟩ (fun _ => false) id
            (initParams ⟨false, false, true⟩ ⟨false, 8080, true⟩) ["-h".data]
          with unknownParameter := some "--bogus".data }
    ∧ mainRun { envG with args := ["--bogus".data] }
      = ([Event.parseArgs, Event.diag (Diag.unknownParam "--bogus".data)],
          Outcome.exited 1, ({ envG with args := ["--bogus".data] } : Env).prefs) :=
  ⟨C8_unknown_parameter.1 ⟨false, false, true⟩ ⟨false, 8080, true⟩ (fun _ => false) id
      ["-h".data] ["-v".data] "--bogus".data (by decide) (by decide) (by decide),
   C8_unknown_parameter.2 { envG with args := ["--bogus".data] } "--bogus".data
      (by decide)⟩

/-- Claim C3, counterexample: with stored default port 8080, the
argument `--webui-port=abc` does not leave the parsed port at the
default — `QString::toInt` turns the malformed value into 0 — and the
launch fails the range check instead of starting up. -/
theorem C3_counterexample :
    envG.prefs.webUiPort = 8080
    ∧ (envParams { envG with args := ["--webui-port=abc".data] }).webUiPort = 0
    ∧ (mainRun { envG with args := ["--webui-port=abc".data] }).2.1 = Outcome.exited 1
    ∧ Event.diag Diag.badPort
        ∈ (mainRun { envG with args := ["--webui-port=abc".data] }).1 := by
  refine ⟨rfl, by decide, by decide, by decide⟩

set_option maxHeartbeats 2000000 in
/-- Claim C3, amended: a `--webui-port=` token whose value contains no
further `=` parses to `toInt(value)`, which is 0 for a malformed or
missing value; the launch then fails the range check with the bad-port
usage error instead of proceeding with the stored default. -/
theorem C3_malformed_port (env : Env) (v : Arg)
    (hv : '=' ∉ v)
    (ht : ".torrent".data.isSuffixOf ("--webui-port=".data ++ v) = false)
    (ha : env.args = ["--webui-port=".data ++ v]) :
    (envParams env).webUiPort = qtToInt v
    ∧ (qtToInt v = 0 →
        (mainRun env).2.1 = Outcome.exited 1
        ∧ Event.diag Diag.badPort ∈ (mainRun env).1
        ∧ ∀ n, Event.setWebUiPort n ∉ (mainRun env).1) := by
  have hparams : envParams env
      = { initParams env.cfg env.prefs with webUiPort := qtToInt v } := by
    unfold envParams
    rw [ha]
    exact parse_single_port env.cfg env.prefs env.fsExists env.absPath v hv ht
  constructor
  · rw [hparams]
  · intro hq
    refine ⟨?_, ?_, fun n => ?_⟩ <;>
      simp [mainRun, hparams, initParams, hq]

/-- Claim C3, amended, witness: the malformed value `abc` concretely. -/
theorem C3_witness :
    (envParams { envG with args := ["--webui-port=abc".data] }).webUiPort
        = qtToInt "abc".data
    ∧ (mainRun { envG with args := ["--webui-port=abc".data] }).2.1
        = Outcome.exited 1
    ∧ Event.diag Diag.badPort
        ∈ (mainRun { envG with args := ["--webui-port=abc".data] }).1 := by
  have h := C3_malformed_port { envG with args := ["--webui-port=abc".data] }
    "abc".data (by decide) (by decide) (by decide)
  exact ⟨h.1, (h.2 (by decide)).1, (h.2 (by decide)).2.1⟩

end Lifecycle

namespace Lifecycle

open QBt

set_option maxHeartbeats 4000000 in
/-- Claim C4: a `--webui-port=<N>` argument with `1 ≤ N ≤ 65535`
(value `v` with `toInt(v) = N`, no further `=` in the value, the token
not ending in `.torrent`, parsing not stopped before the token and the
port not overridden after it) parses to port `N`, which `main` applies
via `setWebUiPort`; an out-of-range or non-numeric port is a usage
error: bad-port diagnostic, exit status 1, and no `setWebUiPort` call at
all (no clamping). -/
theorem C4_webui_port_validation (env : Env) (pre suf : List Arg) (v : Arg) (N : Int)
    (hN : 1 ≤ N ∧ N ≤ 65535)
    (hq : qtToInt v = N)
    (hv : '=' ∉ v)
    (ht : ".torrent".data.isSuffixOf ("--webui-port=".data ++ v) = false)
    (ha : env.args = pre ++ ("--webui-port=".data ++ v) :: suf)
    (hpre : ∀ a ∈ pre, isFlagTok a = true → recognizedFlag env.cfg a = true)
    (hsuf : ∀ a ∈ suf, isFlagTok a = true →
        recognizedFlag env.cfg a = true
        ∧ "--webui-port=".data.isPrefixOf a = false) :
    (envParams env).webUiPort = N
    ∧ ((envParams env).showVersion = false → (envParams env).showHelp = false →
        Event.setWebUiPort N ∈ (mainRun env).1
        ∧ (mainRun env).2.2.webUiPort = N
        ∧ Event.diag Diag.badPort ∉ (mainRun env).1)
    ∧ (∀ env' : Env,
        (envParams env').unknownParameter = none →
        (envParams env').showVersion = false →
        (envParams env').showHelp = false →
        ¬(0 < (envParams env').webUiPort ∧ (envParams env').webUiPort ≤ 65535) →
        (mainRun env').2.1 = Outcome.exited 1
        ∧ Event.diag Diag.badPort ∈ (mainRun env').1
        ∧ ∀ n, Event.setWebUiPort n ∉ (mainRun env').1) := by
  have hparse : envParams env
      = parseLoop env.cfg env.fsExists env.absPath
          { parseLoop env.cfg env.fsExists env.absPath (initParams env.cfg env.prefs) pre
            with webUiPort := qtToInt v } suf := by
    unfold envParams parseCommandLine
    rw [ha, parseLoop_append env.cfg env.fsExists env.absPath pre _ _ hpre,
      parseLoop_port_tok env.cfg env.fsExists env.absPath _ suf v hv ht]
  have hport : (envParams env).webUiPort = N := by
    rw [hparse,
      parseLoop_port_frozen env.cfg env.fsExists env.absPath suf _
        (fun a ha' hf => (hsuf a ha' hf).2)]
    exact hq
  have hunk : (envParams env).unknownParameter = none := by
    rw [hparse,
      parseLoop_no_break env.cfg env.fsExists env.absPath suf _
        (fun a ha' hf => (hsuf a ha' hf).1)]
    exact (parseLoop_no_break env.cfg env.fsExists env.absPath pre
      (initParams env.cfg env.prefs) hpre).trans rfl
  clear hparse
  refine ⟨hport, fun hv2 hh2 => ?_, fun env' hu' hv' hh' hbad => ?_⟩
  · have hp : 0 < (envParams env).webUiPort ∧ (envParams env).webUiPort ≤ 65535 := by
      rw [hport]
      omega
    have hc := consentStep_cases env (envParams env)
      { env.prefs with webUiPort := (envParams env).webUiPort }
    refine ⟨?_, ?_, ?_⟩
    all_goals simp only [mainRun, afterConsent, startEngineStep]
    all_goals rcases hc with hc | hc | hc
    all_goals rw [hc]
    all_goals split
    all_goals try simp_all [List.mem_append]
    all_goals try split_ifs
    all_goals simp_all [List.mem_append]
  · have hc := consentStep_cases env' (envParams env')
      { env'.prefs with webUiPort := (envParams env').webUiPort }
    refine ⟨?_, ?_, fun n => ?_⟩
    all_goals simp only [mainRun, afterConsent, startEngineStep]
    all_goals rcases hc with hc | hc | hc
    all_goals rw [hc]
    all_goals split
    all_goals try simp_all [List.mem_append]
    all_goals try split_ifs
    all_goals try simp_all [List.mem_append]
    all_goals omega

/-- Claim C4, witness: `--webui-port=8080` is parsed and applied;
`--webui-port=70000` is rejected with the bad-port diagnostic. -/
theorem C4_witness :
    (envParams { envG with args := ["--webui-port=8080".data] }).webUiPort = 8080
    ∧ Event.setWebUiPort 8080
        ∈ (mainRun { envG with args := ["--webui-port=8080".data] }).1
    ∧ (mainRun { envG with args := ["--webui-port=8080".data] }).2.2.webUiPort = 8080
    ∧ (mainRun { envG with args := ["--webui-port=70000".data] }).2.1 = Outcome.exited 1
    ∧ Event.diag Diag.badPort
        ∈ (mainRun { envG with args := ["--webui-port=70000".data] }).1 := by
  have h := C4_webui_port_validation { envG with args := ["--webui-port=8080".data] }
    [] [] "8080".data 8080 (by decide) (by decide) (by decide) (by decide)
    (by decide) (by decide) (by decide)
  have hbad := h.2.2 { envG with args := ["--webui-port=70000".data] }
    (by decide) (by decide) (by decide) (by decide)
  exact ⟨h.1, (h.2.1 (by decide) (by decide)).1, (h.2.1 (by decide) (by decide)).2.1,
    hbad.1, hbad.2.1⟩

end Lifecycle

namespace Lifecycle

open QBt

/-- Claim C1, counterexample: in a run where another instance is already
live and the legal notice is declined, the consent prompt occurs but the
singleton check never does — so the singleton check does not complete
before the Consent step begins; `main` consults the consent gate before
`app->isRunning()`. -/
theorem C1_counterexample :
    Event.consentPrompt
        ∈ (mainRun { envG with
            prefs := ⟨false, 8080, false⟩
            consentInputYes := false
            isRunningFirst := true }).1
    ∧ Event.singletonCheck
        ∉ (mainRun { envG with
            prefs := ⟨false, 8080, false⟩
            consentInputYes := false
            isRunningFirst := true }).1 := by
  refine ⟨by decide, by decide⟩

theorem consentStep_cases3 (env : Env) (params : QBtCommandLineParameters) (p : Prefs) :
    ((consentStep env params p).1 = true ∧ (consentStep env params p).2.1 = []
        ∧ (consentStep env params p).2.2 = p)
    ∨ ((consentStep env params p).1 = true
        ∧ (consentStep env params p).2.1 = [Event.consentPrompt, Event.setAcceptedLegal]
        ∧ (consentStep env params p).2.2 = { p with acceptedLegal := true })
    ∨ ((consentStep env params p).1 = false
        ∧ (consentStep env params p).2.1 = [Event.consentPrompt]
        ∧ (consentStep env params p).2.2 = p) := by
  rcases consentStep_cases env params p with hc | hc | hc
  · exact Or.inl ⟨by rw [hc], by rw [hc], by rw [hc]⟩
  · exact Or.inr (Or.inl ⟨by rw [hc], by rw [hc], by rw [hc]⟩)
  · exact Or.inr (Or.inr ⟨by rw [hc], by rw [hc], by rw [hc]⟩)

set_option maxHeartbeats 2000000 in
theorem runTags_sub (env : Env) :
    List.Sublist (runTags env) canonicalOrder
    ∧ (mainRun env).1.head? = some Event.parseArgs := by
  simp only [runTags, mainRun, afterConsent, startEngineStep]
  generalize envParams env = P
  rcases consentStep_cases3 env P { env.prefs with webUiPort := P.webUiPort } with
    ⟨h1, h2, h3⟩ | ⟨h1, h2, h3⟩ | ⟨h1, h2, h3⟩
  all_goals rw [h1, h2, h3]
  all_goals clear h1 h2 h3
  all_goals split
  all_goals simp only [apply_ite Prod.fst, apply_ite (List.filterMap tagOf),
    apply_ite List.head?, List.filterMap_cons, List.filterMap_append,
    List.filterMap_nil, tagOf, List.append_nil, List.nil_append, List.cons_append,
    List.head?_cons, ite_self]
  all_goals repeat rw [if_neg (by decide : ¬((true : Bool) = false))]
  all_goals repeat rw [if_pos (rfl : (false : Bool) = false)]
  all_goals repeat rw [if_pos (rfl : (true : Bool) = true)]
  all_goals repeat rw [if_neg (by decide : ¬((false : Bool) = true))]
  all_goals try decide
  all_goals by_cases c1 : env.cfg.isWin = false ∧ P.showVersion = true
  all_goals try rw [if_pos c1]
  all_goals try rw [if_neg c1]
  all_goals by_cases c2 : env.args.length = 1
  all_goals try rw [if_pos c2]
  all_goals try rw [if_neg c2]
  all_goals try decide
  all_goals by_cases c3 : P.showHelp = true
  all_goals try rw [if_pos c3]
  all_goals try rw [if_neg c3]
  all_goals try decide
  all_goals by_cases c5 : 0 < P.webUiPort ∧ P.webUiPort ≤ 65535
  all_goals try rw [if_pos c5]
  all_goals try rw [if_neg c5]
  all_goals try decide
  all_goals by_cases c6 : env.isRunningFirst = true
  all_goals try rw [if_pos c6]
  all_goals try rw [if_neg c6]
  all_goals by_cases c7 : env.cfg.disableGui = true ∧ P.shouldDaemonize = true
  all_goals try rw [if_pos c7]
  all_goals try rw [if_neg c7]
  all_goals try decide
  all_goals by_cases c8 : env.upgradeOk = false
  all_goals try rw [if_pos c8]
  all_goals try rw [if_neg c8]
  all_goals try decide
  all_goals by_cases c9 : env.cfg.disableGui = true
  all_goals try rw [if_pos c9]
  all_goals try rw [if_neg c9]
  all_goals by_cases c10 : P.shouldDaemonize = true
  all_goals try rw [if_pos c10]
  all_goals try rw [if_neg c10]
  all_goals by_cases c11 : env.daemonOk = true
  all_goals try rw [if_pos c11]
  all_goals try rw [if_neg c11]
  all_goals try decide
  all_goals by_cases c12 : env.isRunningSecond = true
  all_goals try rw [if_pos c12]
  all_goals try rw [if_neg c12]
  all_goals try decide
  all_goals repeat rw [if_neg (by decide : ¬((false : Bool) = true))]
  all_goals by_cases c13 : env.cfg.hasSignalHandling = true
  all_goals try rw [if_pos c13]
  all_goals try rw [if_neg c13]
  all_goals try decide
  all_goals by_cases c14 : decide (P.noSplash = false) = true
  all_goals try rw [if_pos c14]
  all_goals try rw [if_neg c14]
  all_goals try decide
  all_goals simp_all

set_option maxHeartbeats 2000000 in
theorem runTags_order1 (env : Env) :
    (Tag.setPort ∈ runTags env ∨ Tag.consent ∉ runTags env)
    ∧ (Tag.setPort ∈ runTags env ∨ Tag.singleton ∉ runTags env)
    ∧ (Tag.singleton ∈ runTags env ∨ Tag.upgrade ∉ runTags env) := by
  simp only [runTags, mainRun, afterConsent, startEngineStep]
  generalize envParams env = P
  rcases consentStep_cases3 env P { env.prefs with webUiPort := P.webUiPort } with
    ⟨h1, h2, h3⟩ | ⟨h1, h2, h3⟩ | ⟨h1, h2, h3⟩
  all_goals rw [h1, h2, h3]
  all_goals clear h1 h2 h3
  all_goals split
  all_goals simp only [apply_ite Prod.fst, apply_ite (List.filterMap tagOf),
    apply_ite List.head?, List.filterMap_cons, List.filterMap_append,
    List.filterMap_nil, tagOf, List.append_nil, List.nil_append, List.cons_append,
    List.head?_cons, ite_self]
  all_goals repeat rw [if_neg (by decide : ¬((true : Bool) = false))]
  all_goals repeat rw [if_pos (rfl : (false : Bool) = false)]
  all_goals repeat rw [if_pos (rfl : (true : Bool) = true)]
  all_goals repeat rw [if_neg (by decide : ¬((false : Bool) = true))]
  all_goals try decide
  all_goals by_cases c1 : env.cfg.isWin = false ∧ P.showVersion = true
  all_goals try rw [if_pos c1]
  all_goals try rw [if_neg c1]
  all_goals by_cases c2 : env.args.length = 1
  all_goals try rw [if_pos c2]
  all_goals try rw [if_neg c2]
  all_goals try decide
  all_goals by_cases c3 : P.showHelp = true
  all_goals try rw [if_pos c3]
  all_goals try rw [if_neg c3]
  all_goals try decide
  all_goals by_cases c5 : 0 < P.webUiPort ∧ P.webUiPort ≤ 65535
  all_goals try rw [if_pos c5]
  all_goals try rw [if_neg c5]
  all_goals try decide
  all_goals by_cases c6 : env.isRunningFirst = true
  all_goals try rw [if_pos c6]
  all_goals try rw [if_neg c6]
  all_goals by_cases c7 : env.cfg.disableGui = true ∧ P.shouldDaemonize = true
  all_goals try rw [if_pos c7]
  all_goals try rw [if_neg c7]
  all_goals try decide
  all_goals by_cases c8 : env.upgradeOk = false
  all_goals try rw [if_pos c8]
  all_goals try rw [if_neg c8]
  all_goals try decide
  all_goals by_cases c9 : env.cfg.disableGui = true
  all_goals try rw [if_pos c9]
  all_goals try rw [if_neg c9]
  all_goals by_cases c10 : P.shouldDaemonize = true
  all_goals try rw [if_pos c10]
  all_goals try rw [if_neg c10]
  all_goals by_cases c11 : env.daemonOk = true
  all_goals try rw [if_pos c11]
  all_goals try rw [if_neg c11]
  all_goals try decide
  all_goals by_cases c12 : env.isRunningSecond = true
  all_goals try rw [if_pos c12]
  all_goals try rw [if_neg c12]
  all_goals try decide
  all_goals repeat rw [if_neg (by decide : ¬((false : Bool) = true))]
  all_goals by_cases c13 : env.cfg.hasSignalHandling = true
  all_goals try rw [if_pos c13]
  all_goals try rw [if_neg c13]
  all_goals try decide
  all_goals by_cases c14 : decide (P.noSplash = false) = true
  all_goals try rw [if_pos c14]
  all_goals try rw [if_neg c14]
  all_goals try decide
  all_goals simp_all

set_option maxHeartbeats 2000000 in
theorem runTags_order2 (env : Env) :
    (Tag.upgrade ∈ runTags env ∨ Tag.daemonCall ∉ runTags env)
    ∧ (Tag.daemonCall ∈ runTags env ∨ Tag.recheck ∉ runTags env)
    ∧ (Tag.upgrade ∈ runTags env ∨ Tag.engine ∉ runTags env) := by
  simp only [runTags, mainRun, afterConsent, startEngineStep]
  generalize envParams env = P
  rcases consentStep_cases3 env P { env.prefs with webUiPort := P.webUiPort } with
    ⟨h1, h2, h3⟩ | ⟨h1, h2, h3⟩ | ⟨h1, h2, h3⟩
  all_goals rw [h1, h2, h3]
  all_goals clear h1 h2 h3
  all_goals split
  all_goals simp only [apply_ite Prod.fst, apply_ite (List.filterMap tagOf),
    apply_ite List.head?, List.filterMap_cons, List.filterMap_append,
    List.filterMap_nil, tagOf, List.append_nil, List.nil_append, List.cons_append,
    List.head?_cons, ite_self]
  all_goals repeat rw [if_neg (by decide : ¬((true : Bool) = false))]
  all_goals repeat rw [if_pos (rfl : (false : Bool) = false)]
  all_goals repeat rw [if_pos (rfl : (true : Bool) = true)]
  all_goals repeat rw [if_neg (by decide : ¬((false : Bool) = true))]
  all_goals try decide
  all_goals by_cases c1 : env.cfg.isWin = false ∧ P.showVersion = true
  all_goals try rw [if_pos c1]
  all_goals try rw [if_neg c1]
  all_goals by_cases c2 : env.args.length = 1
  all_goals try rw [if_pos c2]
  all_goals try rw [if_neg c2]
  all_goals try decide
  all_goals by_cases c3 : P.showHelp = true
  all_goals try rw [if_pos c3]
  all_goals try rw [if_neg c3]
  all_goals try decide
  all_goals by_cases c5 : 0 < P.webUiPort ∧ P.webUiPort ≤ 65535
  all_goals try rw [if_pos c5]
  all_goals try rw [if_neg c5]
  all_goals try decide
  all_goals by_cases c6 : env.isRunningFirst = true
  all_goals try rw [if_pos c6]
  all_goals try rw [if_neg c6]
  all_goals by_cases c7 : env.cfg.disableGui = true ∧ P.shouldDaemonize = true
  all_goals try rw [if_pos c7]
  all_goals try rw [if_neg c7]
  all_goals try decide
  all_goals by_cases c8 : env.upgradeOk = false
  all_goals try rw [if_pos c8]
  all_goals try rw [if_neg c8]
  all_goals try decide
  all_goals by_cases c9 : env.cfg.disableGui = true
  all_goals try rw [if_pos c9]
  all_goals try rw [if_neg c9]
  all_goals by_cases c10 : P.shouldDaemonize = true
  all_goals try rw [if_pos c10]
  all_goals try rw [if_neg c10]
  all_goals by_cases c11 : env.daemonOk = true
  all_goals try rw [if_pos c11]
  all_goals try rw [if_neg c11]
  all_goals try decide
  all_goals by_cases c12 : env.isRunningSecond = true
  all_goals try rw [if_pos c12]
  all_goals try rw [if_neg c12]
  all_goals try decide
  all_goals repeat rw [if_neg (by decide : ¬((false : Bool) = true))]
  all_goals by_cases c13 : env.cfg.hasSignalHandling = true
  all_goals try rw [if_pos c13]
  all_goals try rw [if_neg c13]
  all_goals try decide
  all_goals by_cases c14 : decide (P.noSplash = false) = true
  all_goals try rw [if_pos c14]
  all_goals try rw [if_neg c14]
  all_goals try decide
  all_goals simp_all

set_option maxHeartbeats 2000000 in
theorem runTags_first_running (env : Env) (hyp : env.isRunningFirst = true) :
    Tag.upgrade ∉ runTags env := by
  simp only [runTags, mainRun, afterConsent, startEngineStep]
  generalize envParams env = P
  simp only [hyp] at *
  rcases consentStep_cases3 env P { env.prefs with webUiPort := P.webUiPort } with
    ⟨h1, h2, h3⟩ | ⟨h1, h2, h3⟩ | ⟨h1, h2, h3⟩
  all_goals rw [h1, h2, h3]
  all_goals clear h1 h2 h3
  all_goals split
  all_goals simp only [apply_ite Prod.fst, apply_ite (List.filterMap tagOf),
    apply_ite List.head?, List.filterMap_cons, List.filterMap_append,
    List.filterMap_nil, tagOf, List.append_nil, List.nil_append, List.cons_append,
    List.head?_cons, ite_self]
  all_goals repeat rw [if_neg (by decide : ¬((true : Bool) = false))]
  all_goals repeat rw [if_pos (rfl : (false : Bool) = false)]
  all_goals repeat rw [if_pos (rfl : (true : Bool) = true)]
  all_goals repeat rw [if_neg (by decide : ¬((false : Bool) = true))]
  all_goals try decide
  all_goals by_cases c1 : env.cfg.isWin = false ∧ P.showVersion = true
  all_goals try rw [if_pos c1]
  all_goals try rw [if_neg c1]
  all_goals by_cases c2 : env.args.length = 1
  all_goals try rw [if_pos c2]
  all_goals try rw [if_neg c2]
  all_goals try decide
  all_goals by_cases c3 : P.showHelp = true
  all_goals try rw [if_pos c3]
  all_goals try rw [if_neg c3]
  all_goals try decide
  all_goals by_cases c5 : 0 < P.webUiPort ∧ P.webUiPort ≤ 65535
  all_goals try rw [if_pos c5]
  all_goals try rw [if_neg c5]
  all_goals try decide
  all_goals by_cases c6 : env.isRunningFirst = true
  all_goals try rw [if_pos c6]
  all_goals try rw [if_neg c6]
  all_goals by_cases c7 : env.cfg.disableGui = true ∧ P.shouldDaemonize = true
  all_goals try rw [if_pos c7]
  all_goals try rw [if_neg c7]
  all_goals try decide
  all_goals by_cases c8 : env.upgradeOk = false
  all_goals try rw [if_pos c8]
  all_goals try rw [if_neg c8]
  all_goals try decide
  all_goals by_cases c9 : env.cfg.disableGui = true
  all_goals try rw [if_pos c9]
  all_goals try rw [if_neg c9]
  all_goals by_cases c10 : P.shouldDaemonize = true
  all_goals try rw [if_pos c10]
  all_goals try rw [if_neg c10]
  all_goals by_cases c11 : env.daemonOk = true
  all_goals try rw [if_pos c11]
  all_goals try rw [if_neg c11]
  all_goals try decide
  all_goals by_cases c12 : env.isRunningSecond = true
  all_goals try rw [if_pos c12]
  all_goals try rw [if_neg c12]
  all_goals try decide
  all_goals repeat rw [if_neg (by decide : ¬((false : Bool) = true))]
  all_goals by_cases c13 : env.cfg.hasSignalHandling = true
  all_goals try rw [if_pos c13]
  all_goals try rw [if_neg c13]
  all_goals try decide
  all_goals by_cases c14 : decide (P.noSplash = false) = true
  all_goals try rw [if_pos c14]
  all_goals try rw [if_neg c14]
  all_goals try decide
  all_goals simp_all

set_option maxHeartbeats 2000000 in
theorem runTags_upgrade_failed (env : Env) (hyp : env.upgradeOk = false) :
    Tag.daemonCall ∉ runTags env ∧ Tag.engine ∉ runTags env := by
  simp only [runTags, mainRun, afterConsent, startEngineStep]
  generalize envParams env = P
  simp only [hyp] at *
  rcases consentStep_cases3 env P { env.prefs with webUiPort := P.webUiPort } with
    ⟨h1, h2, h3⟩ | ⟨h1, h2, h3⟩ | ⟨h1, h2, h3⟩
  all_goals rw [h1, h2, h3]
  all_goals clear h1 h2 h3
  all_goals split
  all_goals simp only [apply_ite Prod.fst, apply_ite (List.filterMap tagOf),
    apply_ite List.head?, List.filterMap_cons, List.filterMap_append,
    List.filterMap_nil, tagOf, List.append_nil, List.nil_append, List.cons_append,
    List.head?_cons, ite_self]
  all_goals repeat rw [if_neg (by decide : ¬((true : Bool) = false))]
  all_goals repeat rw [if_pos (rfl : (false : Bool) = false)]
  all_goals repeat rw [if_pos (rfl : (true : Bool) = true)]
  all_goals repeat rw [if_neg (by decide : ¬((false : Bool) = true))]
  all_goals try decide
  all_goals by_cases c1 : env.cfg.isWin = false ∧ P.showVersion = true
  all_goals try rw [if_pos c1]
  all_goals try rw [if_neg c1]
  all_goals by_cases c2 : env.args.length = 1
  all_goals try rw [if_pos c2]
  all_goals try rw [if_neg c2]
  all_goals try decide
  all_goals by_cases c3 : P.showHelp = true
  all_goals try rw [if_pos c3]
  all_goals try rw [if_neg c3]
  all_goals try decide
  all_goals by_cases c5 : 0 < P.webUiPort ∧ P.webUiPort ≤ 65535
  all_goals try rw [if_pos c5]
  all_goals try rw [if_neg c5]
  all_goals try decide
  all_goals by_cases c6 : env.isRunningFirst = true
  all_goals try rw [if_pos c6]
  all_goals try rw [if_neg c6]
  all_goals by_cases c7 : env.cfg.disableGui = true ∧ P.shouldDaemonize = true
  all_goals try rw [if_pos c7]
  all_goals try rw [if_neg c7]
  all_goals try decide
  all_goals by_cases c8 : env.upgradeOk = false
  all_goals try rw [if_pos c8]
  all_goals try rw [if_neg c8]
  all_goals try decide
  all_goals by_cases c9 : env.cfg.disableGui = true
  all_goals try rw [if_pos c9]
  all_goals try rw [if_neg c9]
  all_goals by_cases c10 : P.shouldDaemonize = true
  all_goals try rw [if_pos c10]
  all_goals try rw [if_neg c10]
  all_goals by_cases c11 : env.daemonOk = true
  all_goals try rw [if_pos c11]
  all_goals try rw [if_neg c11]
  all_goals try decide
  all_goals by_cases c12 : env.isRunningSecond = true
  all_goals try rw [if_pos c12]
  all_goals try rw [if_neg c12]
  all_goals try decide
  all_goals repeat rw [if_neg (by decide : ¬((false : Bool) = true))]
  all_goals by_cases c13 : env.cfg.hasSignalHandling = true
  all_goals try rw [if_pos c13]
  all_goals try rw [if_neg c13]
  all_goals try decide
  all_goals by_cases c14 : decide (P.noSplash = false) = true
  all_goals try rw [if_pos c14]
  all_goals try rw [if_neg c14]
  all_goals try decide
  all_goals simp_all

set_option maxHeartbeats 2000000 in
theorem runTags_daemon_failed (env : Env) (hyp : env.daemonOk = false) :
    Tag.recheck ∉ runTags env := by
  simp only [runTags, mainRun, afterConsent, startEngineStep]
  generalize envParams env = P
  simp only [hyp] at *
  rcases consentStep_cases3 env P { env.prefs with webUiPort := P.webUiPort } with
    ⟨h1, h2, h3⟩ | ⟨h1, h2, h3⟩ | ⟨h1, h2, h3⟩
  all_goals rw [h1, h2, h3]
  all_goals clear h1 h2 h3
  all_goals split
  all_goals simp only [apply_ite Prod.fst, apply_ite (List.filterMap tagOf),
    apply_ite List.head?, List.filterMap_cons, List.filterMap_append,
    List.filterMap_nil, tagOf, List.append_nil, List.nil_append, List.cons_append,
    List.head?_cons, ite_self]
  all_goals repeat rw [if_neg (by decide : ¬((true : Bool) = false))]
  all_goals repeat rw [if_pos (rfl : (false : Bool) = false)]
  all_goals repeat rw [if_pos (rfl : (true : Bool) = true)]
  all_goals repeat rw [if_neg (by decide : ¬((false : Bool) = true))]
  all_goals try decide
  all_goals by_cases c1 : env.cfg.isWin = false ∧ P.showVersion = true
  all_goals try rw [if_pos c1]
  all_goals try rw [if_neg c1]
  all_goals by_cases c2 : env.args.length = 1
  all_goals try rw [if_pos c2]
  all_goals try rw [if_neg c2]
  all_goals try decide
  all_goals by_cases c3 : P.showHelp = true
  all_goals try rw [if_pos c3]
  all_goals try rw [if_neg c3]
  all_goals try decide
  all_goals by_cases c5 : 0 < P.webUiPort ∧ P.webUiPort ≤ 65535
  all_goals try rw [if_pos c5]
  all_goals try rw [if_neg c5]
  all_goals try decide
  all_goals by_cases c6 : env.isRunningFirst = true
  all_goals try rw [if_pos c6]
  all_goals try rw [if_neg c6]
  all_goals by_cases c7 : env.cfg.disableGui = true ∧ P.shouldDaemonize = true
  all_goals try rw [if_pos c7]
  all_goals try rw [if_neg c7]
  all_goals try decide
  all_goals by_cases c8 : env.upgradeOk = false
  all_goals try rw [if_pos c8]
  all_goals try rw [if_neg c8]
  all_goals try decide
  all_goals by_cases c9 : env.cfg.disableGui = true
  all_goals try rw [if_pos c9]
  all_goals try rw [if_neg c9]
  all_goals by_cases c10 : P.shouldDaemonize = true
  all_goals try rw [if_pos c10]
  all_goals try rw [if_neg c10]
  all_goals by_cases c11 : env.daemonOk = true
  all_goals try rw [if_pos c11]
  all_goals try rw [if_neg c11]
  all_goals try decide
  all_goals by_cases c12 : env.isRunningSecond = true
  all_goals try rw [if_pos c12]
  all_goals try rw [if_neg c12]
  all_goals try decide
  all_goals repeat rw [if_neg (by decide : ¬((false : Bool) = true))]
  all_goals by_cases c13 : env.cfg.hasSignalHandling = true
  all_goals try rw [if_pos c13]
  all_goals try rw [if_neg c13]
  all_goals try decide
  all_goals by_cases c14 : decide (P.noSplash = false) = true
  all_goals try rw [if_pos c14]
  all_goals try rw [if_neg c14]
  all_goals try decide
  all_goals simp_all

set_option maxHeartbeats 2000000 in
theorem runTags_signals (env : Env) (hyp : env.cfg.hasSignalHandling = true) :
    Tag.sigInstall ∈ runTags env ∨ Tag.engine ∉ runTags env := by
  simp only [runTags, mainRun, afterConsent, startEngineStep]
  generalize envParams env = P
  simp only [hyp] at *
  rcases consentStep_cases3 env P { env.prefs with webUiPort := P.webUiPort } with
    ⟨h1, h2, h3⟩ | ⟨h1, h2, h3⟩ | ⟨h1, h2, h3⟩
  all_goals rw [h1, h2, h3]
  all_goals clear h1 h2 h3
  all_goals split
  all_goals simp only [apply_ite Prod.fst, apply_ite (List.filterMap tagOf),
    apply_ite List.head?, List.filterMap_cons, List.filterMap_append,
    List.filterMap_nil, tagOf, List.append_nil, List.nil_append, List.cons_append,
    List.head?_cons, ite_self]
  all_goals repeat rw [if_neg (by decide : ¬((true : Bool) = false))]
  all_goals repeat rw [if_pos (rfl : (false : Bool) = false)]
  all_goals repeat rw [if_pos (rfl : (true : Bool) = true)]
  all_goals repeat rw [if_neg (by decide : ¬((false : Bool) = true))]
  all_goals try decide
  all_goals by_cases c1 : env.cfg.isWin = false ∧ P.showVersion = true
  all_goals try rw [if_pos c1]
  all_goals try rw [if_neg c1]
  all_goals by_cases c2 : env.args.length = 1
  all_goals try rw [if_pos c2]
  all_goals try rw [if_neg c2]
  all_goals try decide
  all_goals by_cases c3 : P.showHelp = true
  all_goals try rw [if_pos c3]
  all_goals try rw [if_neg c3]
  all_goals try decide
  all_goals by_cases c5 : 0 < P.webUiPort ∧ P.webUiPort ≤ 65535
  all_goals try rw [if_pos c5]
  all_goals try rw [if_neg c5]
  all_goals try decide
  all_goals by_cases c6 : env.isRunningFirst = true
  all_goals try rw [if_pos c6]
  all_goals try rw [if_neg c6]
  all_goals by_cases c7 : env.cfg.disableGui = true ∧ P.shouldDaemonize = true
  all_goals try rw [if_pos c7]
  all_goals try rw [if_neg c7]
  all_goals try decide
  all_goals by_cases c8 : env.upgradeOk = false
  all_goals try rw [if_pos c8]
  all_goals try rw [if_neg c8]
  all_goals try decide
  all_goals by_cases c9 : env.cfg.disableGui = true
  all_goals try rw [if_pos c9]
  all_goals try rw [if_neg c9]
  all_goals by_cases c10 : P.shouldDaemonize = true
  all_goals try rw [if_pos c10]
  all_goals try rw [if_neg c10]
  all_goals by_cases c11 : env.daemonOk = true
  all_goals try rw [if_pos c11]
  all_goals try rw [if_neg c11]
  all_goals try decide
  all_goals by_cases c12 : env.isRunningSecond = true
  all_goals try rw [if_pos c12]
  all_goals try rw [if_neg c12]
  all_goals try decide
  all_goals repeat rw [if_neg (by decide : ¬((false : Bool) = true))]
  all_goals by_cases c13 : env.cfg.hasSignalHandling = true
  all_goals try rw [if_pos c13]
  all_goals try rw [if_neg c13]
  all_goals try decide
  all_goals by_cases c14 : decide (P.noSplash = false) = true
  all_goals try rw [if_pos c14]
  all_goals try rw [if_neg c14]
  all_goals try decide
  all_goals simp_all

set_option maxHeartbeats 4000000 in
/-- Claim C1, amended: the lifecycle steps occur in the order
ParseArgs → ApplyPort → Consent → CheckSingleton → RunMigrations →
(optional) Daemonize → ReacquireSingleton → InstallSignalHandlers →
StartEngine (the consent gate runs before the singleton check, not
after): every run's step trace is a sublist of that order, parsing is
always first, and each step occurs only when the previous step completed
successfully; any failure or early exit short-circuits all later
steps. -/
theorem C1_step_order (env : Env) :
    List.Sublist (runTags env) canonicalOrder
    ∧ (mainRun env).1.head? = some Event.parseArgs
    ∧ (Tag.consent ∈ runTags env → Tag.setPort ∈ runTags env)
    ∧ (Tag.singleton ∈ runTags env → Tag.setPort ∈ runTags env)
    ∧ (Tag.upgrade ∈ runTags env →
        Tag.singleton ∈ runTags env ∧ env.isRunningFirst = false)
    ∧ (Tag.daemonCall ∈ runTags env →
        Tag.upgrade ∈ runTags env ∧ env.upgradeOk = true)
    ∧ (Tag.recheck ∈ runTags env →
        Tag.daemonCall ∈ runTags env ∧ env.daemonOk = true)
    ∧ (Tag.engine ∈ runTags env → Tag.upgrade ∈ runTags env ∧ env.upgradeOk = true)
    ∧ (Tag.engine ∈ runTags env → env.cfg.hasSignalHandling = true →
        Tag.sigInstall ∈ runTags env) := by
  have hs0 := runTags_sub env
  have ho1 := runTags_order1 env
  have ho2 := runTags_order2 env
  refine ⟨hs0.1, hs0.2, fun hx => ?_, fun hx => ?_, fun hx => ?_, fun hx => ?_,
    fun hx => ?_, fun hx => ?_, fun hx hs => ?_⟩
  · exact ho1.1.resolve_right (not_not_intro hx)
  · exact ho1.2.1.resolve_right (not_not_intro hx)
  · refine ⟨ho1.2.2.resolve_right (not_not_intro hx), ?_⟩
    cases hf : env.isRunningFirst
    · rfl
    · exact absurd hx (runTags_first_running env hf)
  · refine ⟨ho2.1.resolve_right (not_not_intro hx), ?_⟩
    cases hu : env.upgradeOk
    · exact absurd hx (runTags_upgrade_failed env hu).1
    · rfl
  · refine ⟨ho2.2.1.resolve_right (not_not_intro hx), ?_⟩
    cases hd : env.daemonOk
    · exact absurd hx (runTags_daemon_failed env hd)
    · rfl
  · refine ⟨ho2.2.2.resolve_right (not_not_intro hx), ?_⟩
    cases hu : env.upgradeOk
    · exact absurd hx (runTags_upgrade_failed env hu).2
    · rfl
  · exact (runTags_signals env hs).resolve_right (not_not_intro hx)

/-- Claim C1, amended, witness: a full successful GUI run concretely. -/
theorem C1_witness :
    List.Sublist (runTags envG) canonicalOrder
    ∧ (mainRun envG).1.head? = some Event.parseArgs
    ∧ Tag.sigInstall ∈ runTags envG :=
  ⟨(C1_step_order envG).1, (C1_step_order envG).2.1,
   (C1_step_order envG).2.2.2.2.2.2.2.2 (by decide) rfl⟩

end Lifecycle
